import Mathlib

/-!
Verification development for the propagation-comparison engine of the
Unity RF-simulation post-processing scripts (`ResultsAnalyzer.py`,
`Evaluation/ErrorMetrics.py`, `Evaluation/S2_error_metrics.py`,
`Evaluation/Plot_Lte_5g.py`, `MorePlots.py`).

Shallow embedding conventions:
* float quantities are modelled by real numbers (`ℝ`);
* CSV join keys (distances, frequencies) are decimal values from files and
  are modelled by rationals (`ℚ`) so that joins and groupings are decidable;
* a Python float `nan` produced by an empty mean / empty join is modelled by
  `Option.none`; a raised exception is modelled by `Except.error` /
  `Option.none` of the enclosing computation;
* `pandas`/`numpy` reductions (`mean`, `sqrt`, `log10`, `log2`) are the exact
  real operations.
-/

open Real

/-- Arithmetic mean of a list of reals (`np.mean` / `Series.mean` on a
nonempty vector; the empty case is handled by callers, who model `nan`
explicitly). -/
noncomputable def listMean (l : List ℝ) : ℝ := l.sum / l.length

namespace ErrorMetrics

/-- Speed of light constant `C = 3e8` from `ErrorMetrics.py` and
`S2_error_metrics.py`. -/
def Cspeed : ℝ := 3e8

/-- Wavelength-based free-space path loss, `fspl_db` in `ErrorMetrics.py`
lines 7-10 and `S2_error_metrics.py` lines 15-19:
`wavelength = C / (f_mhz * 1e6)`, `pll = (4·π·d / wavelength)²`,
result `10·log10(pll)`.  Python raises `ZeroDivisionError` when
`f_mhz * 1e6 == 0` and `math.log10` raises a domain error when its argument
is not strictly positive; both raised exceptions are modelled by `none`. -/
noncomputable def fspl_db (distance_m frequency_mhz : ℝ) : Option ℝ :=
  if frequency_mhz * 1e6 = 0 then none
  else
    let wavelength := Cspeed / (frequency_mhz * 1e6)
    let path_loss_linear := (4 * Real.pi * distance_m / wavelength) ^ (2 : ℕ)
    if path_loss_linear ≤ 0 then none
    else some (10 * Real.logb 10 path_loss_linear)

/-- `pr_dbm` from `ErrorMetrics.py` lines 12-13: theoretical received power
`tx_power - fspl_db(d, f)`. -/
noncomputable def pr_dbm (distance_m frequency_mhz tx_power_dbm : ℝ) : Option ℝ :=
  (fspl_db distance_m frequency_mhz).map (fun pl => tx_power_dbm - pl)

end ErrorMetrics

namespace ResultsAnalyzer

/-- Empirical-constant free-space path loss, `fspl_db` in
`ResultsAnalyzer.py` lines 84-91 (identical in `Plot_Lte_5g.py` lines 68-72):
`d_km = max(d, 1e-3)/1000`, `f = max(f, 1e-6)`,
`32.44 + 20·log10(f) + 20·log10(d_km)`.  The `np.maximum` clamps make it a
total function. -/
noncomputable def fspl_db (distance_m frequency_mhz : ℝ) : ℝ :=
  let d_km := max distance_m 1e-3 / 1000
  let f_mhz := max frequency_mhz 1e-6
  32.44 + 20 * Real.logb 10 f_mhz + 20 * Real.logb 10 d_km

end ResultsAnalyzer

section NumericBounds

/-- From `a ^ q < b ^ p` (natural powers) conclude `a < b ^ (p/q)`. -/
lemma lt_rpow_of_pow_lt {b a : ℝ} {p q : ℕ} (hb : 0 ≤ b) (hq : (q : ℝ) ≠ 0)
    (_ha : 0 ≤ a) (h : a ^ q < b ^ p) : a < b ^ ((p : ℝ) / (q : ℝ)) := by
  by_contra hle
  push_neg at hle
  have h2 : (b ^ ((p : ℝ) / (q : ℝ))) ^ q = b ^ p := by
    rw [← Real.rpow_natCast (b ^ ((p : ℝ) / (q : ℝ))) q,
      ← Real.rpow_mul hb, div_mul_cancel₀ _ hq, Real.rpow_natCast]
  have h1 : b ^ p ≤ a ^ q := by
    calc b ^ p = (b ^ ((p : ℝ) / (q : ℝ))) ^ q := h2.symm
    _ ≤ a ^ q := pow_le_pow_left₀ (Real.rpow_nonneg hb _) hle q
  exact absurd (lt_of_lt_of_le h h1) (lt_irrefl _)

/-- From `b ^ p < a ^ q` (natural powers) conclude `b ^ (p/q) < a`. -/
lemma rpow_lt_of_pow_lt {b a : ℝ} {p q : ℕ} (hb : 0 ≤ b) (hq : (q : ℝ) ≠ 0)
    (ha : 0 ≤ a) (h : b ^ p < a ^ q) : b ^ ((p : ℝ) / (q : ℝ)) < a := by
  by_contra hle
  push_neg at hle
  have h2 : (b ^ ((p : ℝ) / (q : ℝ))) ^ q = b ^ p := by
    rw [← Real.rpow_natCast (b ^ ((p : ℝ) / (q : ℝ))) q,
      ← Real.rpow_mul hb, div_mul_cancel₀ _ hq, Real.rpow_natCast]
  have h1 : a ^ q ≤ b ^ p := by
    calc a ^ q ≤ (b ^ ((p : ℝ) / (q : ℝ))) ^ q := pow_le_pow_left₀ ha hle q
    _ = b ^ p := h2
  exact absurd (lt_of_lt_of_le h h1) (lt_irrefl _)

/-- Lower numeric bound `0.62208 < log10(4π/3)`. -/
lemma logb_four_pi_third_gt : (0.62208 : ℝ) < Real.logb 10 (4 * Real.pi / 3) := by
  have hpos : (0 : ℝ) < 4 * Real.pi / 3 := by positivity
  rw [show (0.62208 : ℝ) = ((1944 : ℕ) : ℝ) / ((3125 : ℕ) : ℝ) by norm_num]
  rw [Real.lt_logb_iff_rpow_lt (by norm_num) hpos]
  apply rpow_lt_of_pow_lt (by norm_num) (by norm_num) hpos.le
  calc (10 : ℝ) ^ (1944 : ℕ) < (4 * 3.141592 / 3) ^ (3125 : ℕ) := by norm_num
  _ ≤ (4 * Real.pi / 3) ^ (3125 : ℕ) := by
      apply pow_le_pow_left₀ (by norm_num)
      have h := Real.pi_gt_d6
      linarith

/-- Upper numeric bound `log10(4π/3) < 0.6221`. -/
lemma logb_four_pi_third_lt : Real.logb 10 (4 * Real.pi / 3) < (0.6221 : ℝ) := by
  have hpos : (0 : ℝ) < 4 * Real.pi / 3 := by positivity
  rw [show (0.6221 : ℝ) = ((6221 : ℕ) : ℝ) / ((10000 : ℕ) : ℝ) by norm_num]
  rw [Real.logb_lt_iff_lt_rpow (by norm_num) hpos]
  apply lt_rpow_of_pow_lt (by norm_num) (by norm_num) hpos.le
  calc (4 * Real.pi / 3) ^ (10000 : ℕ) ≤ (4 * 3.141593 / 3) ^ (10000 : ℕ) := by
        apply pow_le_pow_left₀ (by positivity)
        have h := Real.pi_lt_d6
        linarith
  _ < (10 : ℝ) ^ (6221 : ℕ) := by norm_num

/-- `log10(1000) = 3`. -/
lemma logb_ten_thousand : Real.logb 10 (1000 : ℝ) = 3 := by
  rw [show (1000 : ℝ) = 10 ^ (3 : ℕ) by norm_num, Real.logb_pow,
    Real.logb_self_eq_one (by norm_num)]
  norm_num

end NumericBounds

section FsplForms

/-- `log10(100) = 2`. -/
lemma logb_hundred : Real.logb 10 (100 : ℝ) = 2 := by
  rw [show (100 : ℝ) = 10 ^ (2 : ℕ) by norm_num, Real.logb_pow,
    Real.logb_self_eq_one (by norm_num)]
  norm_num

/-- Closed form of the wavelength-based FSPL on strictly positive inputs. -/
lemma em_fspl_db_eq {d f : ℝ} (hd : 0 < d) (hf : 0 < f) :
    ErrorMetrics.fspl_db d f =
      some (20 * Real.logb 10 (4 * Real.pi / 3) + 20 * Real.logb 10 d +
        20 * Real.logb 10 f - 40) := by
  unfold ErrorMetrics.fspl_db
  simp only [ErrorMetrics.Cspeed]
  have h1 : f * 1e6 ≠ 0 := by positivity
  rw [if_neg h1]
  have hb : (0 : ℝ) < 4 * Real.pi * d / (3e8 / (f * 1e6)) := by positivity
  have h2 : ¬((4 * Real.pi * d / ((3e8 : ℝ) / (f * 1e6))) ^ (2 : ℕ) ≤ 0) := by
    push_neg
    positivity
  rw [if_neg h2]
  have hsplit : 4 * Real.pi * d / ((3e8 : ℝ) / (f * 1e6)) =
      (4 * Real.pi / 3) * d * f / 100 := by
    field_simp
    ring
  have hpi3 : (4 * Real.pi / 3 : ℝ) ≠ 0 := by positivity
  have hprod : ((4 * Real.pi / 3) * d * f : ℝ) ≠ 0 := by positivity
  rw [hsplit, Real.logb_pow, Real.logb_div hprod (by norm_num),
    Real.logb_mul (by positivity) hf.ne', Real.logb_mul hpi3 hd.ne', logb_hundred]
  norm_num
  ring

/-- Closed form of the empirical-constant FSPL when the clamps are inactive. -/
lemma ra_fspl_db_eq {d f : ℝ} (hd : 1e-3 ≤ d) (hf : 1e-6 ≤ f) :
    ResultsAnalyzer.fspl_db d f =
      32.44 + 20 * Real.logb 10 f + 20 * Real.logb 10 d - 60 := by
  unfold ResultsAnalyzer.fspl_db
  have hd0 : (0 : ℝ) < d := lt_of_lt_of_le (by norm_num) hd
  rw [max_eq_left hd, max_eq_left hf]
  show 32.44 + 20 * Real.logb 10 f + 20 * Real.logb 10 (d / 1000) = _
  rw [Real.logb_div hd0.ne' (by norm_num), logb_ten_thousand]
  ring

/-- The two FSPL formulations differ exactly by the constant
`20·log10(4π/3) − 12.44` wherever both are unclamped. -/
lemma fspl_difference {d f : ℝ} (hd : 1e-3 ≤ d) (hf : 1e-6 ≤ f) :
    ErrorMetrics.fspl_db d f =
      some (ResultsAnalyzer.fspl_db d f +
        (20 * Real.logb 10 (4 * Real.pi / 3) - 12.44)) := by
  have hd0 : (0 : ℝ) < d := lt_of_lt_of_le (by norm_num) hd
  have hf0 : (0 : ℝ) < f := lt_of_lt_of_le (by norm_num) hf
  rw [em_fspl_db_eq hd0 hf0, ra_fspl_db_eq hd hf]
  congr 1
  ring

end FsplForms

/-- C1 counterexample: at `d = 1000 m`, `f = 1000 MHz` the wavelength-based
FSPL (`ErrorMetrics.fspl_db`) and the empirical-constant FSPL
(`ResultsAnalyzer.fspl_db`) have relative discrepancy strictly greater than
`1e-9`, refuting the claimed `1e-9` relative agreement. -/
theorem C1_counterexample :
    ∃ x : ℝ, ErrorMetrics.fspl_db 1000 1000 = some x ∧
      1e-9 < |x - ResultsAnalyzer.fspl_db 1000 1000| / |x| := by
  have hL := logb_four_pi_third_gt
  have hU := logb_four_pi_third_lt
  have hra : ResultsAnalyzer.fspl_db 1000 1000 = 92.44 := by
    rw [ra_fspl_db_eq (by norm_num) (by norm_num), logb_ten_thousand]
    ring
  refine ⟨ResultsAnalyzer.fspl_db 1000 1000 +
      (20 * Real.logb 10 (4 * Real.pi / 3) - 12.44),
    fspl_difference (by norm_num) (by norm_num), ?_⟩
  rw [hra]
  obtain ⟨c, hc1, hc2, hceq⟩ :
      ∃ c : ℝ, (0.0016 : ℝ) < c ∧ c < (0.002 : ℝ) ∧
        20 * Real.logb 10 (4 * Real.pi / 3) - 12.44 = c :=
    ⟨_, by linarith, by linarith, rfl⟩
  rw [hceq]
  have hc0 : (0 : ℝ) < c := by linarith
  have habs1 : |(92.44 : ℝ) + c - 92.44| = c := by
    rw [show (92.44 : ℝ) + c - 92.44 = c by ring]
    exact abs_of_pos hc0
  have habs2 : |(92.44 : ℝ) + c| = 92.44 + c := abs_of_pos (by linarith)
  rw [habs1, habs2, lt_div_iff₀ (by linarith)]
  nlinarith

/-- C1 amended: wherever the clamps of the empirical form are inactive
(`d ≥ 1 mm`, `f ≥ 1e-6 MHz`), the two FSPL formulations differ by the
input-independent constant `20·log10(4π/3) − 12.44`, which lies strictly
between `0.0016 dB` and `0.002 dB` — an absolute offset of about
`1.77e-3 dB` coming from the rounded empirical constant `32.44`, far larger
than `1e-9` relative agreement. -/
theorem C1_amended (d f : ℝ) (hd : 1e-3 ≤ d) (hf : 1e-6 ≤ f) :
    ∃ x : ℝ, ErrorMetrics.fspl_db d f = some x ∧
      x - ResultsAnalyzer.fspl_db d f =
        20 * Real.logb 10 (4 * Real.pi / 3) - 12.44 ∧
      (0.0016 : ℝ) < 20 * Real.logb 10 (4 * Real.pi / 3) - 12.44 ∧
      20 * Real.logb 10 (4 * Real.pi / 3) - 12.44 < (0.002 : ℝ) :=
  ⟨_, fspl_difference hd hf, by ring,
    by linarith [logb_four_pi_third_gt], by linarith [logb_four_pi_third_lt]⟩

/-- C1 amended, witness at `d = 1000`, `f = 1000`. -/
theorem C1_amended_witness :
    ∃ x : ℝ, ErrorMetrics.fspl_db 1000 1000 = some x ∧
      x - ResultsAnalyzer.fspl_db 1000 1000 =
        20 * Real.logb 10 (4 * Real.pi / 3) - 12.44 ∧
      (0.0016 : ℝ) < 20 * Real.logb 10 (4 * Real.pi / 3) - 12.44 ∧
      20 * Real.logb 10 (4 * Real.pi / 3) - 12.44 < (0.002 : ℝ) :=
  C1_amended 1000 1000 (by norm_num) (by norm_num)

/-- C5 counterexample: the wavelength-based implementation
(`ErrorMetrics.fspl_db`, also used by `S2_error_metrics.py`) performs no
clamping and fails at distance `0` (`math.log10` domain error, modelled by
`none`), refuting the claim that the path-loss computation never raises for
every real distance including `0`. -/
theorem C5_counterexample : ErrorMetrics.fspl_db 0 1000 = none := by
  unfold ErrorMetrics.fspl_db
  norm_num

/-- C5 amended: the empirical-constant implementation
(`ResultsAnalyzer.fspl_db`) is total — it clamps distance to `≥ 1 mm` and
frequency to `≥ 1e-6 MHz` before the logarithms, so pre-clamping the inputs
is a no-op and the log arguments are strictly positive; the wavelength-based
implementation (`ErrorMetrics.fspl_db`) has no clamps and is defined exactly
on `d ≠ 0`, `f ≠ 0`. -/
theorem C5_amended (d f d' f' : ℝ) (hd' : d' ≠ 0) (hf' : f' ≠ 0) :
    0 < max d 1e-3 ∧ 0 < max f 1e-6 ∧
    ResultsAnalyzer.fspl_db d f =
      ResultsAnalyzer.fspl_db (max d 1e-3) (max f 1e-6) ∧
    ∃ x, ErrorMetrics.fspl_db d' f' = some x := by
  refine ⟨lt_max_of_lt_right (by norm_num), lt_max_of_lt_right (by norm_num),
    ?_, ?_⟩
  · unfold ResultsAnalyzer.fspl_db
    simp only [max_assoc, max_self]
  · unfold ErrorMetrics.fspl_db
    simp only [ErrorMetrics.Cspeed]
    have h1 : f' * 1e6 ≠ 0 := by
      intro h
      rcases mul_eq_zero.mp h with h | h
      · exact hf' h
      · norm_num at h
    rw [if_neg h1]
    have hw : (3e8 : ℝ) / (f' * 1e6) ≠ 0 := div_ne_zero (by norm_num) h1
    have hb : 4 * Real.pi * d' / ((3e8 : ℝ) / (f' * 1e6)) ≠ 0 := by
      apply div_ne_zero _ hw
      exact mul_ne_zero (by positivity) hd'
    have h2 : ¬((4 * Real.pi * d' / ((3e8 : ℝ) / (f' * 1e6))) ^ (2 : ℕ) ≤ 0) := by
      push_neg
      exact (sq_nonneg _).lt_of_ne (Ne.symm (pow_ne_zero 2 hb))
    rw [if_neg h2]
    exact ⟨_, rfl⟩

/-- C5 amended, witness at `d = 0`, `f = -1` (clamped side) and
`d' = -5`, `f' = 2` (wavelength side). -/
theorem C5_amended_witness :
    0 < max (0 : ℝ) 1e-3 ∧ 0 < max (-1 : ℝ) 1e-6 ∧
    ResultsAnalyzer.fspl_db 0 (-1) =
      ResultsAnalyzer.fspl_db (max (0 : ℝ) 1e-3) (max (-1 : ℝ) 1e-6) ∧
    ∃ x, ErrorMetrics.fspl_db (-5) 2 = some x :=
  C5_amended 0 (-1) (-5) 2 (by norm_num) (by norm_num)

section ErrorMetricsEngine

/-- One CSV row as consumed by `S2_error_metrics.py` and `Plot_Lte_5g.py`:
columns `PropagationModel`, `Distance`, `RxSignalStrength`, `TxFrequency`,
`TxPower`.  Join keys (`Distance`, `TxFrequency`) are decimal CSV values,
modelled as `ℚ` so that the pandas equality join is decidable; signal
levels stay `ℝ`. -/
structure Row where
  model : String
  distance : ℚ
  rx : ℝ
  txFreq : ℚ
  txPower : ℝ
deriving Inhabited

/-- Insertion step for the sort modelling Python `sorted` on strings. -/
def insertStr (s : String) : List String → List String
  | [] => [s]
  | x :: xs => if s ≤ x then s :: x :: xs else x :: insertStr s xs

/-- Insertion sort modelling `sorted(...)` over model names. -/
def sortStrings : List String → List String
  | [] => []
  | x :: xs => insertStr x (sortStrings xs)

lemma mem_insertStr {a s : String} {l : List String} :
    a ∈ insertStr s l ↔ a = s ∨ a ∈ l := by
  induction l with
  | nil => simp [insertStr]
  | cons x xs ih =>
    by_cases h : s ≤ x
    · simp [insertStr, h]
    · simp only [insertStr, h, if_false, List.mem_cons, ih]
      tauto

lemma mem_sortStrings {a : String} {l : List String} :
    a ∈ sortStrings l ↔ a ∈ l := by
  induction l with
  | nil => simp [sortStrings]
  | cons x xs ih => simp [sortStrings, mem_insertStr, ih]

/-- `sorted(df["PropagationModel"].unique())` (`S2_error_metrics.py` line 58,
`Plot_Lte_5g.py` line 85). -/
def sortedModels (df : List Row) : List String :=
  sortStrings ((df.map (·.model)).dedup)

lemma mem_sortedModels {M : String} {df : List Row} :
    M ∈ sortedModels df ↔ M ∈ df.map (·.model) := by
  rw [sortedModels, mem_sortStrings, List.mem_dedup]

/-- `pd.merge(sub[["Distance","RxSignalStrength"]],
ref[["Distance","RxSignalStrength"]], on="Distance", how="inner")`:
every (candidate row, reference row) pair with exactly equal `Distance`,
reduced to the paired received powers. -/
def innerJoin (sub ref : List Row) : List (ℝ × ℝ) :=
  sub.flatMap fun a =>
    (ref.filter fun b => b.distance == a.distance).map fun b => (a.rx, b.rx)

lemma innerJoin_eq_nil_of_disjoint {sub ref : List Row}
    (h : ∀ a ∈ sub, ∀ b ∈ ref, a.distance ≠ b.distance) :
    innerJoin sub ref = [] := by
  rw [innerJoin, List.flatMap_eq_nil_iff]
  intro a ha
  rw [List.map_eq_nil_iff, List.filter_eq_nil_iff]
  intro b hb
  simp only [beq_iff_eq]
  intro hbeq
  exact h a ha b hb hbeq.symm

lemma innerJoin_ne_nil_of_shared {sub ref : List Row} {a b : Row}
    (ha : a ∈ sub) (hb : b ∈ ref) (hd : a.distance = b.distance) :
    innerJoin sub ref ≠ [] := by
  intro hnil
  have hmem : (a.rx, b.rx) ∈ innerJoin sub ref := by
    rw [innerJoin, List.mem_flatMap]
    exact ⟨a, ha, List.mem_map.mpr ⟨b, List.mem_filter.mpr ⟨hb, by simp [hd]⟩, rfl⟩⟩
  rw [hnil] at hmem
  exact absurd hmem (List.not_mem_nil _)

/-- Sequencing of a list of fallible per-row computations: a raised
exception at any element aborts the whole script run (`none`).  Used both
by the `fspl_db` loop of `S2_error_metrics.compute_metrics` (lines 85-88)
and by the `pr_dbm` loop of `ErrorMetrics.py` (line 30). -/
def seqOptions : List (Option ℝ) → Option (List ℝ)
  | [] => some []
  | o :: os => do
      let x ← o
      let xs ← seqOptions os
      pure (x :: xs)

lemma seqOptions_length {l : List (Option ℝ)} {xs : List ℝ}
    (h : seqOptions l = some xs) : xs.length = l.length := by
  induction l generalizing xs with
  | nil =>
    rw [seqOptions] at h
    cases h
    rfl
  | cons o os ih =>
    rw [seqOptions] at h
    cases o with
    | none => cases h
    | some x =>
      simp only [Option.bind_eq_bind, Option.some_bind] at h
      cases hseq : seqOptions os with
      | none => rw [hseq] at h; cases h
      | some ys =>
        rw [hseq] at h
        simp only [Option.some_bind] at h
        cases h
        simp [ih hseq]

/-- One output row of `compute_metrics` (`S2_error_metrics.py` lines
119-130).  The coverage columns are modelled separately by
`coverage_ratio`; a float `nan` in the RMSE/Bias columns is `none`. -/
structure MetricRec where
  model : String
  freq : ℚ
  txPower : ℝ
  nSamples : ℕ
  meanPr : ℝ
  meanPl : ℝ
  meanExcessPl : ℝ
  rmse : Option ℝ
  bias : Option ℝ

/-- The RMSE/Bias branch of `compute_metrics` (`S2_error_metrics.py` lines
90-111): the reference model scores `0.0` against itself by the explicit
short-circuit; an empty reference or an empty distance join gives `nan`
(modelled `none`); otherwise RMSE = `sqrt(mean(err²))`, bias = `mean(err)`
over the inner-joined pairs. -/
noncomputable def rmseBias (sub ref_df : List Row) (isRef : Bool) :
    Option ℝ × Option ℝ :=
  if isRef || ref_df.isEmpty then
    if ref_df.isEmpty then (none, none) else (some 0, some 0)
  else
    let merged := innerJoin sub ref_df
    if merged.isEmpty then (none, none)
    else
      let err := merged.map fun p => p.1 - p.2
      (some (Real.sqrt (listMean (err.map fun e => e ^ (2 : ℕ)))),
        some (listMean err))

/-- Loop body of `compute_metrics` for one model name (`S2_error_metrics.py`
lines 73-130): an empty subset is skipped (`continue`, contributing no
row); otherwise the loop first evaluates the wavelength `fspl_db` at each
of the subset's distances with the subset's first-row frequency (the
excess-path-loss computation of lines 85-88) — a zero distance or zero
frequency makes that call raise, aborting the whole run (`none`) — and
only then the RMSE/Bias branch and the appended output row. -/
noncomputable def metricFor (df : List Row) (reference_model : String)
    (ref_df : List Row) (m : String) : Option (List MetricRec) :=
  let sub := df.filter fun r => r.model == m
  if sub.isEmpty then some []
  else
    let freq_mhz := sub.headI.txFreq
    let tx_power_dbm := sub.headI.txPower
    let pl_model := sub.map fun r => tx_power_dbm - r.rx
    match seqOptions (sub.map fun r =>
        ErrorMetrics.fspl_db (r.distance : ℝ) (freq_mhz : ℝ)) with
    | none => none
    | some pl_fspl =>
      let excess_pl := List.zipWith (fun x y => x - y) pl_model pl_fspl
      let rb := rmseBias sub ref_df (m == reference_model)
      some [{ model := m
              freq := freq_mhz
              txPower := tx_power_dbm
              nSamples := sub.length
              meanPr := listMean (sub.map (·.rx))
              meanPl := listMean pl_model
              meanExcessPl := listMean excess_pl
              rmse := rb.1
              bias := rb.2 }]

/-- The `for model in models` loop of `compute_metrics`: results are
appended in model order; an exception raised in any iteration aborts the
whole call. -/
noncomputable def metricRows (df : List Row) (reference_model : String)
    (ref_df : List Row) : List String → Option (List MetricRec)
  | [] => some []
  | m :: ms => do
      let rows ← metricFor df reference_model ref_df m
      let rest ← metricRows df reference_model ref_df ms
      pure (rows ++ rest)

/-- `compute_metrics` from `S2_error_metrics.py` lines 47-132: iterates the
sorted unique model names against the pre-extracted reference rows; `none`
models a raised exception (`ValueError`/`ZeroDivisionError` from the
unclamped `fspl_db` of the excess-path-loss step), in which case the
function produces no metrics frame at all. -/
noncomputable def compute_metrics (df : List Row)
    (reference_model : String) : Option (List MetricRec) :=
  metricRows df reference_model
    (df.filter fun r => r.model == reference_model) (sortedModels df)

/-- Every row contributed by a model of the iteration list ends up in a
successful `metricRows` result. -/
lemma metricRows_mem {df : List Row} {ref : String} {ref_df : List Row}
    {ms : List String} {recs : List MetricRec}
    (hok : metricRows df ref ref_df ms = some recs) {m : String}
    (hm : m ∈ ms) :
    ∃ rows, metricFor df ref ref_df m = some rows ∧ ∀ r ∈ rows, r ∈ recs := by
  induction ms generalizing recs with
  | nil => cases hm
  | cons m' ms' ih =>
    rw [metricRows] at hok
    cases hmf : metricFor df ref ref_df m' with
    | none => rw [hmf] at hok; cases hok
    | some rows' =>
      rw [hmf] at hok
      simp only [Option.bind_eq_bind, Option.some_bind] at hok
      cases hrest : metricRows df ref ref_df ms' with
      | none => rw [hrest] at hok; cases hok
      | some rest =>
        rw [hrest] at hok
        simp only [Option.some_bind] at hok
        cases hok
        rcases List.mem_cons.mp hm with rfl | hm'
        · exact ⟨rows', hmf, fun r hr => List.mem_append_left _ hr⟩
        · obtain ⟨rows, h1, h2⟩ := ih hrest hm'
          exact ⟨rows, h1, fun r hr => List.mem_append_right _ (h2 r hr)⟩

/-- `metricRows` succeeds when every iterated model's loop body succeeds. -/
lemma metricRows_isSome {df : List Row} {ref : String} {ref_df : List Row}
    {ms : List String} (h : ∀ m ∈ ms, metricFor df ref ref_df m ≠ none) :
    ∃ recs, metricRows df ref ref_df ms = some recs := by
  induction ms with
  | nil => exact ⟨[], rfl⟩
  | cons m' ms' ih =>
    obtain ⟨rows, hrows⟩ := Option.ne_none_iff_exists'.mp
      (h m' (List.mem_cons_self _ _))
    obtain ⟨rest, hrest⟩ := ih fun m hm => h m (List.mem_cons_of_mem _ hm)
    refine ⟨rows ++ rest, ?_⟩
    rw [metricRows, hrows, hrest]
    rfl

/-- `metricRows` aborts when any iterated model's loop body raises. -/
lemma metricRows_eq_none {df : List Row} {ref : String} {ref_df : List Row}
    {ms : List String} {m : String} (hm : m ∈ ms)
    (hfail : metricFor df ref ref_df m = none) :
    metricRows df ref ref_df ms = none := by
  induction ms with
  | nil => cases hm
  | cons m' ms' ih =>
    rw [metricRows]
    rcases List.mem_cons.mp hm with rfl | hm'
    · rw [hfail]
      rfl
    · cases hmf : metricFor df ref ref_df m' with
      | none => rfl
      | some rows =>
        rw [ih hm']
        rfl

end ErrorMetricsEngine

/-- C6 counterexample: a model group containing a zero distance makes the
loop's excess-path-loss step call the unclamped wavelength `fspl_db` at
distance 0 (`S2_error_metrics.py` lines 85-88), which raises *before* the
self-reference short-circuit of lines 91-93, so `compute_metrics` of the
model against itself aborts and yields no metrics at all — in particular
no RMSE = 0 row — refuting the claim as stated over every model group. -/
theorem C6_counterexample :
    compute_metrics [⟨"M", 0, -60, 3500, 30⟩] "M" = none ∧
    ¬∃ recs r, compute_metrics [⟨"M", 0, -60, 3500, 30⟩] "M" = some recs ∧
      r ∈ recs ∧ r.rmse = some 0 ∧ r.bias = some 0 := by
  have hnone : ErrorMetrics.fspl_db (0 : ℝ) (3500 : ℝ) = none := by
    unfold ErrorMetrics.fspl_db
    norm_num
  have hmain : compute_metrics [⟨"M", 0, -60, 3500, 30⟩] "M" = none := by
    unfold compute_metrics
    have hmf : metricFor [⟨"M", 0, -60, 3500, 30⟩] "M"
        ([⟨"M", 0, -60, 3500, 30⟩].filter fun r => r.model == "M") "M" =
        none := by
      unfold metricFor
      simp [seqOptions, hnone]
    exact metricRows_eq_none (mem_sortedModels.mpr (by simp)) hmf
  refine ⟨hmain, ?_⟩
  rintro ⟨recs, r, heq, -⟩
  rw [hmain] at heq
  cases heq

/-- C6 amended: whenever the metric computation completes without raising
(all the loop's unclamped `fspl_db` calls succeed), the resulting frame
contains a row for the reference model scored against itself with
RMSE = 0 and bias = 0 exactly (the explicit short-circuit of
`S2_error_metrics.py` lines 91-93); on a group with a zero distance or
zero frequency the computation instead raises and produces no rows at
all. -/
theorem C6_self_reference (df : List Row) (M : String)
    (recs : List MetricRec)
    (h : (df.filter fun r => r.model == M).isEmpty = false)
    (hok : compute_metrics df M = some recs) :
    ∃ r ∈ recs, r.model = M ∧ r.rmse = some 0 ∧ r.bias = some 0 := by
  have hmemModels : M ∈ sortedModels df := by
    rw [mem_sortedModels]
    have hne : df.filter (fun r => r.model == M) ≠ [] := by
      intro hnil
      rw [hnil] at h
      simp at h
    obtain ⟨r, hr⟩ := List.exists_mem_of_ne_nil _ hne
    have hrf := List.mem_filter.mp hr
    exact List.mem_map.mpr ⟨r, hrf.1, by simpa using hrf.2⟩
  unfold compute_metrics at hok
  obtain ⟨rows, hmf, hsubset⟩ := metricRows_mem hok hmemModels
  unfold metricFor at hmf
  simp only [h, Bool.false_eq_true, if_false] at hmf
  split at hmf
  · cases hmf
  · cases hmf
    refine ⟨_, hsubset _ (List.mem_cons_self _ _), rfl, ?_, ?_⟩
    · show (rmseBias (df.filter fun r => r.model == M)
        (df.filter fun r => r.model == M) (M == M)).1 = some 0
      unfold rmseBias
      simp [h]
    · show (rmseBias (df.filter fun r => r.model == M)
        (df.filter fun r => r.model == M) (M == M)).2 = some 0
      unfold rmseBias
      simp [h]

/-- Concrete single-model dataset used as the C6 witness input. -/
def c6Data : List Row := [⟨"FreeSpace", 10, -60, 3500, 30⟩]

/-- C6 witness: on `c6Data` (one sample at 10 m, 3500 MHz) the computation
succeeds and its frame holds the RMSE = 0, bias = 0 row. -/
theorem C6_self_reference_witness :
    ∃ recs, compute_metrics c6Data "FreeSpace" = some recs ∧
      ∃ r ∈ recs, r.model = "FreeSpace" ∧ r.rmse = some 0 ∧ r.bias = some 0 := by
  obtain ⟨X, hf⟩ : ∃ X, ErrorMetrics.fspl_db (10 : ℝ) (3500 : ℝ) = some X :=
    ⟨_, em_fspl_db_eq (by norm_num) (by norm_num)⟩
  obtain ⟨rows, hmf⟩ : ∃ rows, metricFor c6Data "FreeSpace"
      (c6Data.filter fun r => r.model == "FreeSpace") "FreeSpace" =
      some rows := by
    unfold metricFor
    simp [c6Data, seqOptions, hf]
  obtain ⟨recs, hok⟩ : ∃ recs,
      compute_metrics c6Data "FreeSpace" = some recs := by
    unfold compute_metrics
    apply metricRows_isSome
    intro m hm
    rw [mem_sortedModels] at hm
    simp [c6Data] at hm
    subst hm
    rw [hmf]
    simp
  exact ⟨recs, hok,
    C6_self_reference c6Data "FreeSpace" recs (by simp [c6Data]) hok⟩

/-- Evaluation of `metricFor` for a model whose rows are present and whose
FSPL loop succeeds. -/
lemma metricFor_eq_some {df : List Row} {ref : String} {ref_df : List Row}
    {m : String} {pl_fspl : List ℝ}
    (h : (df.filter fun r => r.model == m).isEmpty = false)
    (hseq : seqOptions ((df.filter fun r => r.model == m).map fun r =>
      ErrorMetrics.fspl_db (r.distance : ℝ)
        ((df.filter fun x => x.model == m).headI.txFreq : ℝ)) =
      some pl_fspl) :
    metricFor df ref ref_df m = some
      [{ model := m
         freq := ((df.filter fun r => r.model == m).headI).txFreq
         txPower := ((df.filter fun r => r.model == m).headI).txPower
         nSamples := (df.filter fun r => r.model == m).length
         meanPr := listMean ((df.filter fun r => r.model == m).map (·.rx))
         meanPl := listMean ((df.filter fun r => r.model == m).map fun r =>
           (df.filter fun x => x.model == m).headI.txPower - r.rx)
         meanExcessPl := listMean (List.zipWith (fun x y => x - y)
           ((df.filter fun r => r.model == m).map fun r =>
             (df.filter fun x => x.model == m).headI.txPower - r.rx) pl_fspl)
         rmse := (rmseBias (df.filter fun r => r.model == m) ref_df (m == ref)).1
         bias := (rmseBias (df.filter fun r => r.model == m) ref_df (m == ref)).2 }] := by
  unfold metricFor
  simp [h, hseq]

/-- The C2 end-to-end dataset: models `FreeSpace` and `LogD`, five samples
each at distances `{10,20,30,40,50}` m, `TxFrequency = 3500` MHz,
`TxPower = 30` dBm, with every `LogD` received power equal to the
`FreeSpace` received power at the same distance minus `5` dB. -/
def c2Data (v1 v2 v3 v4 v5 : ℝ) : List Row :=
  [⟨"FreeSpace", 10, v1, 3500, 30⟩, ⟨"FreeSpace", 20, v2, 3500, 30⟩,
   ⟨"FreeSpace", 30, v3, 3500, 30⟩, ⟨"FreeSpace", 40, v4, 3500, 30⟩,
   ⟨"FreeSpace", 50, v5, 3500, 30⟩,
   ⟨"LogD", 10, v1 - 5, 3500, 30⟩, ⟨"LogD", 20, v2 - 5, 3500, 30⟩,
   ⟨"LogD", 30, v3 - 5, 3500, 30⟩, ⟨"LogD", 40, v4 - 5, 3500, 30⟩,
   ⟨"LogD", 50, v5 - 5, 3500, 30⟩]

/-- C2: on the constant-offset dataset `c2Data`, `compute_metrics`
completes without raising and its frame reports RMSE = 5.0 dB and
bias = −5.0 dB exactly for `LogD` against `FreeSpace` (inner join on exact
distance, `err = candidate − reference`, `RMSE = sqrt(mean(err²))`,
`bias = mean(err)`), whatever the five FreeSpace levels are. -/
theorem C2_rmse_bias_offset (v1 v2 v3 v4 v5 : ℝ) :
    ∃ recs, compute_metrics (c2Data v1 v2 v3 v4 v5) "FreeSpace" = some recs ∧
      ∃ r ∈ recs, r.model = "LogD" ∧ r.rmse = some 5 ∧ r.bias = some (-5) := by
  have hrb : rmseBias ((c2Data v1 v2 v3 v4 v5).filter fun r => r.model == "LogD")
      ((c2Data v1 v2 v3 v4 v5).filter fun r => r.model == "FreeSpace")
      ("LogD" == "FreeSpace") = (some 5, some (-5)) := by
    unfold rmseBias c2Data innerJoin
    simp [listMean]
    constructor
    · rw [show (5 : ℝ) ^ 2 + (5 ^ 2 + (5 ^ 2 + (5 ^ 2 + 5 ^ 2))) = 5 ^ 2 * 5 by
        norm_num,
        Real.sqrt_mul (by positivity), Real.sqrt_sq (by norm_num), mul_div_assoc,
        div_self (Real.sqrt_ne_zero'.mpr (by norm_num)), mul_one]
    · norm_num
  obtain ⟨X1, hf1⟩ : ∃ X, ErrorMetrics.fspl_db (10 : ℝ) (3500 : ℝ) = some X :=
    ⟨_, em_fspl_db_eq (by norm_num) (by norm_num)⟩
  obtain ⟨X2, hf2⟩ : ∃ X, ErrorMetrics.fspl_db (20 : ℝ) (3500 : ℝ) = some X :=
    ⟨_, em_fspl_db_eq (by norm_num) (by norm_num)⟩
  obtain ⟨X3, hf3⟩ : ∃ X, ErrorMetrics.fspl_db (30 : ℝ) (3500 : ℝ) = some X :=
    ⟨_, em_fspl_db_eq (by norm_num) (by norm_num)⟩
  obtain ⟨X4, hf4⟩ : ∃ X, ErrorMetrics.fspl_db (40 : ℝ) (3500 : ℝ) = some X :=
    ⟨_, em_fspl_db_eq (by norm_num) (by norm_num)⟩
  obtain ⟨X5, hf5⟩ : ∃ X, ErrorMetrics.fspl_db (50 : ℝ) (3500 : ℝ) = some X :=
    ⟨_, em_fspl_db_eq (by norm_num) (by norm_num)⟩
  have hsubF : ((c2Data v1 v2 v3 v4 v5).filter fun r =>
      r.model == "FreeSpace").isEmpty = false := by
    simp [c2Data]
  have hsubL : ((c2Data v1 v2 v3 v4 v5).filter fun r =>
      r.model == "LogD").isEmpty = false := by
    simp [c2Data]
  have hseqF : seqOptions
      (((c2Data v1 v2 v3 v4 v5).filter fun r => r.model == "FreeSpace").map
        fun r => ErrorMetrics.fspl_db (r.distance : ℝ)
          (((c2Data v1 v2 v3 v4 v5).filter fun x =>
            x.model == "FreeSpace").headI.txFreq : ℝ)) =
      some [X1, X2, X3, X4, X5] := by
    simp [c2Data, seqOptions, hf1, hf2, hf3, hf4, hf5]
  have hseqL : seqOptions
      (((c2Data v1 v2 v3 v4 v5).filter fun r => r.model == "LogD").map
        fun r => ErrorMetrics.fspl_db (r.distance : ℝ)
          (((c2Data v1 v2 v3 v4 v5).filter fun x =>
            x.model == "LogD").headI.txFreq : ℝ)) =
      some [X1, X2, X3, X4, X5] := by
    simp [c2Data, seqOptions, hf1, hf2, hf3, hf4, hf5]
  obtain ⟨recs, hcm⟩ : ∃ recs,
      compute_metrics (c2Data v1 v2 v3 v4 v5) "FreeSpace" = some recs := by
    unfold compute_metrics
    apply metricRows_isSome
    intro m hm
    rw [mem_sortedModels] at hm
    simp [c2Data] at hm
    rcases hm with rfl | rfl
    · rw [metricFor_eq_some hsubF hseqF]
      simp
    · rw [metricFor_eq_some hsubL hseqL]
      simp
  have hmem : "LogD" ∈ sortedModels (c2Data v1 v2 v3 v4 v5) := by
    rw [mem_sortedModels]
    simp [c2Data]
  obtain ⟨rows, hmf, hsubset⟩ :=
    metricRows_mem (by unfold compute_metrics at hcm; exact hcm) hmem
  rw [metricFor_eq_some hsubL hseqL] at hmf
  cases hmf
  refine ⟨recs, hcm, _, hsubset _ (List.mem_cons_self _ _), rfl, ?_, ?_⟩
  · show (rmseBias ((c2Data v1 v2 v3 v4 v5).filter fun r => r.model == "LogD")
      ((c2Data v1 v2 v3 v4 v5).filter fun r => r.model == "FreeSpace")
      ("LogD" == "FreeSpace")).1 = some 5
    rw [hrb]
  · show (rmseBias ((c2Data v1 v2 v3 v4 v5).filter fun r => r.model == "LogD")
      ((c2Data v1 v2 v3 v4 v5).filter fun r => r.model == "FreeSpace")
      ("LogD" == "FreeSpace")).2 = some (-5)
    rw [hrb]

lemma isEmpty_eq_false_of_ne_nil {α : Type} {l : List α} (h : l ≠ []) :
    l.isEmpty = false := by
  cases l with
  | nil => exact absurd rfl h
  | cons x xs => rfl

namespace PlotLte5g

/-- Warning text printed by `Plot_Lte_5g.py` line 91 for an empty join. -/
def noOverlapMsg (model ref : String) : String :=
  "[WARN] No overlapping distances for " ++ model ++ " vs " ++ ref ++ "."

/-- Warning text printed by `Plot_Lte_5g.py` line 78 for an empty reference. -/
def noRefMsg (ref : String) : String :=
  "[WARN] No rows for reference model " ++ ref ++ "."

/-- Per-model entry of the metrics dictionary built by
`compute_metrics_vs_reference` (`Plot_Lte_5g.py` lines 85-97): the
reference itself is skipped, an empty distance join means the model is
omitted (`none`), otherwise `(model, rmse, bias)`. -/
noncomputable def modelMetric (data : List Row) (ref : String) (m : String) :
    Option (String × ℝ × ℝ) :=
  if m == ref then none
  else
    let mdf := data.filter fun r => r.model == m
    let refRows := data.filter fun r => r.model == ref
    let merged := innerJoin mdf refRows
    if merged.isEmpty then none
    else
      let err := merged.map fun p => p.1 - p.2
      some (m, Real.sqrt (listMean (err.map fun e => e ^ (2 : ℕ))), listMean err)

/-- The no-overlap warning produced for one model by the same loop. -/
def noOverlapWarn (data : List Row) (ref : String) (m : String) :
    Option String :=
  if m == ref then none
  else
    let mdf := data.filter fun r => r.model == m
    let refRows := data.filter fun r => r.model == ref
    if (innerJoin mdf refRows).isEmpty then some (noOverlapMsg m ref) else none

/-- `compute_metrics_vs_reference` from `Plot_Lte_5g.py` lines 74-99:
metrics dictionary (association list in sorted model order) together with
the warnings printed; an empty reference produces no metrics and the
no-reference warning. -/
noncomputable def compute_metrics_vs_reference (data : List Row)
    (ref : String) : List (String × ℝ × ℝ) × List String :=
  if (data.filter fun r => r.model == ref).isEmpty then ([], [noRefMsg ref])
  else
    ((sortedModels data).filterMap (modelMetric data ref),
      (sortedModels data).filterMap (noOverlapWarn data ref))

lemma modelMetric_fst {data : List Row} {ref m : String} {p : String × ℝ × ℝ}
    (h : modelMetric data ref m = some p) : p.1 = m := by
  unfold modelMetric at h
  by_cases h1 : (m == ref) = true
  · simp [h1] at h
  · rw [Bool.not_eq_true] at h1
    simp only [h1, Bool.false_eq_true, if_false] at h
    split at h
    · exact absurd h (by simp)
    · have hinj := Option.some.inj h
      rw [← hinj]

lemma modelMetric_eq_none {data : List Row} {ref M : String}
    (hjoin : innerJoin (data.filter fun r => r.model == M)
      (data.filter fun r => r.model == ref) = []) :
    modelMetric data ref M = none := by
  unfold modelMetric
  by_cases h1 : (M == ref) = true
  · simp [h1]
  · rw [Bool.not_eq_true] at h1
    simp [h1, hjoin]

lemma modelMetric_eq_some {data : List Row} {ref M : String}
    (hne : (M == ref) = false)
    (hjoin : innerJoin (data.filter fun r => r.model == M)
      (data.filter fun r => r.model == ref) ≠ []) :
    modelMetric data ref M = some (M,
      Real.sqrt (listMean (((innerJoin (data.filter fun r => r.model == M)
        (data.filter fun r => r.model == ref)).map fun p => p.1 - p.2).map
          fun e => e ^ (2 : ℕ))),
      listMean ((innerJoin (data.filter fun r => r.model == M)
        (data.filter fun r => r.model == ref)).map fun p => p.1 - p.2)) := by
  unfold modelMetric
  simp [hne, isEmpty_eq_false_of_ne_nil hjoin]

lemma noOverlapWarn_eq_some {data : List Row} {ref M : String}
    (hne : (M == ref) = false)
    (hjoin : innerJoin (data.filter fun r => r.model == M)
      (data.filter fun r => r.model == ref) = []) :
    noOverlapWarn data ref M = some (noOverlapMsg M ref) := by
  unfold noOverlapWarn
  simp [hne, hjoin]

end PlotLte5g

/-- C3: in `compute_metrics_vs_reference`, a candidate model whose distance
values share no element with the reference model's is reported through the
no-overlap warning and omitted from the metrics dictionary, while every
other non-reference model sharing at least one distance with the reference
still yields a metric row; the computation itself is total and does not
fail. -/
theorem C3_no_overlap (data : List Row) (refm M : String)
    (hMref : M ≠ refm)
    (hMmem : M ∈ data.map (·.model))
    (href : (data.filter fun r => r.model == refm).isEmpty = false)
    (hdisj : ∀ a ∈ data.filter (fun r => r.model == M),
      ∀ b ∈ data.filter (fun r => r.model == refm), a.distance ≠ b.distance) :
    (∀ p ∈ (PlotLte5g.compute_metrics_vs_reference data refm).1, p.1 ≠ M) ∧
    PlotLte5g.noOverlapMsg M refm ∈
      (PlotLte5g.compute_metrics_vs_reference data refm).2 ∧
    (∀ M', M' ≠ refm → M' ∈ data.map (·.model) →
      (∃ a ∈ data.filter (fun r => r.model == M'),
        ∃ b ∈ data.filter (fun r => r.model == refm), a.distance = b.distance) →
      ∃ p ∈ (PlotLte5g.compute_metrics_vs_reference data refm).1, p.1 = M') := by
  have hjoin : innerJoin (data.filter fun r => r.model == M)
      (data.filter fun r => r.model == refm) = [] :=
    innerJoin_eq_nil_of_disjoint hdisj
  have hcm : PlotLte5g.compute_metrics_vs_reference data refm =
      ((sortedModels data).filterMap (PlotLte5g.modelMetric data refm),
        (sortedModels data).filterMap (PlotLte5g.noOverlapWarn data refm)) := by
    unfold PlotLte5g.compute_metrics_vs_reference
    rw [href]
    simp
  rw [hcm]
  refine ⟨?_, ?_, ?_⟩
  · intro p hp hpM
    obtain ⟨m, _, hsome⟩ := List.mem_filterMap.mp hp
    have hfst := PlotLte5g.modelMetric_fst hsome
    rw [hpM] at hfst
    rw [← hfst] at hsome
    rw [PlotLte5g.modelMetric_eq_none hjoin] at hsome
    exact absurd hsome (by simp)
  · exact List.mem_filterMap.mpr ⟨M, mem_sortedModels.mpr hMmem,
      PlotLte5g.noOverlapWarn_eq_some (beq_eq_false_iff_ne.mpr hMref) hjoin⟩
  · intro M' hM'ref hM'mem ⟨a, ha, b, hb, hd⟩
    have hne := innerJoin_ne_nil_of_shared ha hb hd
    exact ⟨_, List.mem_filterMap.mpr ⟨M', mem_sortedModels.mpr hM'mem,
      PlotLte5g.modelMetric_eq_some (beq_eq_false_iff_ne.mpr hM'ref) hne⟩, rfl⟩

/-- Concrete C3 witness dataset: reference `FreeSpace` at `{10,20,30}` m,
`LogD` at the disjoint `{15,25,35}` m, `Hata` at the matching
`{10,20,30}` m. -/
def c3Data : List Row :=
  [⟨"FreeSpace", 10, -60, 700, 30⟩, ⟨"FreeSpace", 20, -65, 700, 30⟩,
   ⟨"FreeSpace", 30, -70, 700, 30⟩,
   ⟨"LogD", 15, -66, 700, 30⟩, ⟨"LogD", 25, -71, 700, 30⟩,
   ⟨"LogD", 35, -76, 700, 30⟩,
   ⟨"Hata", 10, -72, 700, 30⟩, ⟨"Hata", 20, -77, 700, 30⟩,
   ⟨"Hata", 30, -82, 700, 30⟩]

/-- C3 witness: on `c3Data`, `LogD` (distances `{15,25,35}`) is omitted and
warned about, while `Hata` (distances `{10,20,30}`) still gets a metric
row. -/
theorem C3_no_overlap_witness :
    (∀ p ∈ (PlotLte5g.compute_metrics_vs_reference c3Data "FreeSpace").1,
      p.1 ≠ "LogD") ∧
    PlotLte5g.noOverlapMsg "LogD" "FreeSpace" ∈
      (PlotLte5g.compute_metrics_vs_reference c3Data "FreeSpace").2 ∧
    (∃ p ∈ (PlotLte5g.compute_metrics_vs_reference c3Data "FreeSpace").1,
      p.1 = "Hata") := by
  obtain ⟨h1, h2, h3⟩ := C3_no_overlap c3Data "FreeSpace" "LogD"
    (by decide) (by decide) (by decide) (by decide)
  refine ⟨h1, h2, h3 "Hata" (by decide) (by decide) ?_⟩
  refine ⟨⟨"Hata", 10, -72, 700, 30⟩, by simp [c3Data], ?_⟩
  exact ⟨⟨"FreeSpace", 10, -60, 700, 30⟩, by simp [c3Data], rfl⟩

namespace ResultsAnalyzer

/-- A raw CSV file as seen by the normalizer's column resolution: only the
column names matter to the alias logic of `ResultsAnalyzer.py`. -/
structure CsvFile where
  columns : List String
deriving DecidableEq

/-- ASCII lowercasing of one character, modelling Python `str.lower()` on
the ASCII column names of these CSV exports. -/
def toLowerAscii (c : Char) : Char :=
  if 65 ≤ c.toNat ∧ c.toNat ≤ 90 then Char.ofNat (c.toNat + 32) else c

/-- Casefold key of a column name. -/
def lowerKey (s : String) : List Char := s.data.map toLowerAscii

/-- `pick_col` (`ResultsAnalyzer.py` lines 29-42), casefolded branch:
Python builds `lowmap = {c.lower(): c}` (later duplicates overwrite
earlier ones, hence `getLast?`) and returns the first candidate whose
lowercase form is present. -/
def pick_col (cols : List String) (candidates : List String) : Option String :=
  candidates.findSome? fun cand =>
    (cols.filter fun c => lowerKey c == lowerKey cand).getLast?

/-- Distance provenance of `ensure_distance` (lines 44-60). -/
inductive DistSource
  | column (c : String)
  | positions
  | indexFallback
deriving DecidableEq

/-- Frequency provenance of `ensure_frequency_mhz` (lines 62-82). -/
inductive FreqSource
  | mhzColumn (c : String)
  | hzColumn (c : String)
  | ambiguousColumn (c : String)
  | default2100
deriving DecidableEq

/-- Position columns picked in `load_and_normalize` (lines 148-157): all
six of rx/tx x,y,z must resolve for the positional derivation. -/
def posColsPresent (f : CsvFile) : Bool :=
  (pick_col f.columns ["rx_x", "rx_world_x", "rxX"]).isSome &&
  (pick_col f.columns ["rx_y", "rx_world_y", "rxY"]).isSome &&
  (pick_col f.columns ["rx_z", "rx_world_z", "rxZ"]).isSome &&
  (pick_col f.columns ["tx_x", "tx_world_x", "txX"]).isSome &&
  (pick_col f.columns ["tx_y", "tx_world_y", "txY"]).isSome &&
  (pick_col f.columns ["tx_z", "tx_world_z", "txZ"]).isSome

/-- `ensure_distance` (lines 44-60): explicit distance column, else the
3D positional derivation, else the row index as pseudo-distance
("last resort ... avoids crash"); it never raises. -/
def ensure_distance (f : CsvFile) : DistSource :=
  match pick_col f.columns ["distance_m", "distance", "rx_tx_distance_m"] with
  | some c => .column c
  | none => if posColsPresent f then .positions else .indexFallback

/-- `ensure_frequency_mhz` (lines 62-82): MHz column, else Hz column, else
magnitude-detected ambiguous column, else the hardcoded `2100.0` MHz
fallback; it never raises. -/
def ensure_frequency_mhz (f : CsvFile) : FreqSource :=
  match pick_col f.columns ["frequency_mhz", "freq_mhz"] with
  | some c => .mhzColumn c
  | none =>
    match pick_col f.columns ["frequency_hz", "freq_hz"] with
    | some c => .hzColumn c
    | none =>
      match pick_col f.columns ["frequency"] with
      | some c => .ambiguousColumn c
      | none => .default2100

/-- Alias list of `ensure_rx_power_dbm` (lines 94-97). -/
def rxPowerAliases : List String :=
  ["rx_power_dbm", "rsrp_dbm", "received_power_dbm", "currentSignalStrength",
   "rx_power", "RSRP"]

/-- Message of the `ValueError` raised at line 99. -/
def rxPowerError : String :=
  "Could not find a received power column (e.g., rx_power_dbm / RSRP)."

/-- `ensure_rx_power_dbm` (lines 93-100): the one field that raises
(`ValueError`, modelled `Except.error`) when no alias matches. -/
def ensure_rx_power_dbm (f : CsvFile) : Except String String :=
  match pick_col f.columns rxPowerAliases with
  | some c => .ok c
  | none => .error rxPowerError

/-- Field provenance produced by `load_and_normalize` (lines 145-196); the
numeric values are irrelevant to the resolution claims. -/
structure Normalized where
  rxPowerCol : String
  dist : DistSource
  freq : FreqSource
deriving DecidableEq

/-- `load_and_normalize` (lines 145-196): received power may raise; the
frequency and distance resolutions always succeed via their fallbacks. -/
def load_and_normalize (f : CsvFile) : Except String Normalized := do
  let rx ← ensure_rx_power_dbm f
  pure { rxPowerCol := rx
         dist := ensure_distance f
         freq := ensure_frequency_mhz f }

/-- The per-file loop of `main` (lines 285-292): a file whose parse raises
is reported (`"❌ Failed to parse ..."`) and skipped with `continue`; the
rest of the batch proceeds. -/
def processBatch (files : List CsvFile) : List Normalized × List String :=
  files.foldr
    (fun f acc =>
      match load_and_normalize f with
      | .ok n => (n :: acc.1, acc.2)
      | .error e => (acc.1, ("Failed to parse: " ++ e) :: acc.2))
    ([], [])

lemma processBatch_eq (files : List CsvFile) :
    processBatch files =
      (files.filterMap fun g => (load_and_normalize g).toOption,
        files.filterMap fun g =>
          match load_and_normalize g with
          | .ok _ => none
          | .error e => some ("Failed to parse: " ++ e)) := by
  induction files with
  | nil => rfl
  | cons f fs ih =>
    unfold processBatch at ih ⊢
    cases hl : load_and_normalize f with
    | ok n => simp [List.foldr_cons, hl, ih, List.filterMap_cons, Except.toOption]
    | error e => simp [List.foldr_cons, hl, ih, List.filterMap_cons, Except.toOption]

end ResultsAnalyzer

/-- File used for the C4 counterexample: a received-power column resolves,
but no distance alias, no position columns and no frequency alias exist. -/
def c4File : ResultsAnalyzer.CsvFile := ⟨["rx_power_dbm"]⟩

/-- C4 counterexample: on `c4File` neither distance nor frequency can be
resolved from any alias or derivation, yet `load_and_normalize` does not
abort — distance silently falls back to the row index and frequency to the
hardcoded 2100 MHz default.  This refutes the claim that an unresolvable
mandatory distance or frequency aborts processing of the file with a named
error. -/
theorem C4_counterexample :
    ResultsAnalyzer.pick_col c4File.columns
      ["distance_m", "distance", "rx_tx_distance_m"] = none ∧
    ResultsAnalyzer.posColsPresent c4File = false ∧
    ResultsAnalyzer.pick_col c4File.columns ["frequency_mhz", "freq_mhz"] = none ∧
    ResultsAnalyzer.pick_col c4File.columns ["frequency_hz", "freq_hz"] = none ∧
    ResultsAnalyzer.pick_col c4File.columns ["frequency"] = none ∧
    ResultsAnalyzer.load_and_normalize c4File =
      .ok ⟨"rx_power_dbm", .indexFallback, .default2100⟩ :=
  ⟨rfl, rfl, rfl, rfl, rfl, rfl⟩

/-- C4 amended: only the received-power field is mandatory with a named
error — when no received-power alias resolves, `load_and_normalize` aborts
that file with the `ValueError` text; the batch loop reports the failure
and continues, its successful outputs being exactly those of the loadable
files (missing distance and frequency instead fall back silently). -/
theorem C4_amended (f : ResultsAnalyzer.CsvFile)
    (files : List ResultsAnalyzer.CsvFile)
    (h : ResultsAnalyzer.pick_col f.columns ResultsAnalyzer.rxPowerAliases = none)
    (hmem : f ∈ files) :
    ResultsAnalyzer.load_and_normalize f =
      .error ResultsAnalyzer.rxPowerError ∧
    ("Failed to parse: " ++ ResultsAnalyzer.rxPowerError) ∈
      (ResultsAnalyzer.processBatch files).2 ∧
    (ResultsAnalyzer.processBatch files).1 =
      files.filterMap fun g =>
        (ResultsAnalyzer.load_and_normalize g).toOption := by
  have herr : ResultsAnalyzer.load_and_normalize f =
      .error ResultsAnalyzer.rxPowerError := by
    unfold ResultsAnalyzer.load_and_normalize ResultsAnalyzer.ensure_rx_power_dbm
    rw [h]
    rfl
  refine ⟨herr, ?_, ?_⟩
  · rw [ResultsAnalyzer.processBatch_eq]
    exact List.mem_filterMap.mpr ⟨f, hmem, by rw [herr]⟩
  · rw [ResultsAnalyzer.processBatch_eq]

/-- C4 amended, witness: a two-file batch where the first file lacks any
received-power alias and the second is `c4File`. -/
theorem C4_amended_witness :
    ResultsAnalyzer.load_and_normalize ⟨["distance_m"]⟩ =
      .error ResultsAnalyzer.rxPowerError ∧
    ("Failed to parse: " ++ ResultsAnalyzer.rxPowerError) ∈
      (ResultsAnalyzer.processBatch [⟨["distance_m"]⟩, c4File]).2 ∧
    (ResultsAnalyzer.processBatch [⟨["distance_m"]⟩, c4File]).1 =
      [⟨["distance_m"]⟩, c4File].filterMap fun g =>
        (ResultsAnalyzer.load_and_normalize g).toOption :=
  C4_amended ⟨["distance_m"]⟩ [⟨["distance_m"]⟩, c4File] (by rfl) (by decide)

namespace MorePlots

/-- `_thermal_noise_dbm` (`MorePlots.py` lines 200-202): note the
`max(bandwidth_hz, 1.0)` guard inside the logarithm. -/
noncomputable def thermal_noise_dbm (bandwidth_hz noise_figure_db : ℝ) : ℝ :=
  -174.0 + 10.0 * Real.logb 10 (max bandwidth_hz 1.0) + noise_figure_db

/-- `_to_linear_dbm` (lines 204-205): `10^(dbm/10)`. -/
noncomputable def to_linear_dbm (dbm : ℝ) : ℝ := (10 : ℝ) ^ (dbm / 10)

/-- `_to_dbm` (lines 207-209), including the `1e-30` floor. -/
noncomputable def to_dbm (linear : ℝ) : ℝ :=
  10.0 * Real.logb 10 (max linear 1e-30)

/-- Interference column: `none` models the `-np.inf` dBm default that
`compute_sinr_and_throughput` fills in, whose linear power is exactly 0. -/
noncomputable def interference_linear : Option ℝ → ℝ
  | none => 0
  | some dbm => to_linear_dbm dbm

/-- Linear SINR of one sample as computed by `compute_sinr_and_throughput`
(lines 211-225): `s / (i + n)` in linear power. -/
noncomputable def sinr_linear (rsrp_dbm : ℝ) (intf : Option ℝ)
    (bandwidth_hz noise_figure_db : ℝ) : ℝ :=
  to_linear_dbm rsrp_dbm /
    (interference_linear intf +
      to_linear_dbm (thermal_noise_dbm bandwidth_hz noise_figure_db))

/-- Throughput of one sample (lines 227-230): `SE = log2(1+SINR)` capped at
`7.6` bits/s/Hz, throughput `BW·SE/1e6` Mbit/s. -/
noncomputable def throughput_mbps (rsrp_dbm : ℝ) (intf : Option ℝ)
    (bandwidth_hz noise_figure_db : ℝ) : ℝ :=
  bandwidth_hz *
    min (Real.logb 2 (1 + sinr_linear rsrp_dbm intf bandwidth_hz noise_figure_db))
      7.6 / 1e6

/-- `compute_sinr_and_throughput` (lines 211-231) applied to the RSRP
column: the added (`sinr_db`, `throughput_mbps`) pair per sample. -/
noncomputable def compute_sinr_and_throughput (rsrps : List ℝ) (intf : Option ℝ)
    (bandwidth_hz noise_figure_db : ℝ) : List (ℝ × ℝ) :=
  rsrps.map fun r =>
    (to_dbm (sinr_linear r intf bandwidth_hz noise_figure_db),
      throughput_mbps r intf bandwidth_hz noise_figure_db)

/-- Claim-side thermal noise, following the formula of the claim (and spec
§4.4) literally: `N(dBm) = −174 + 10·log10(BW_Hz) + NF_dB`, with no
`max(BW,1)` guard. -/
noncomputable def thermal_noise_dbm_claim (bandwidth_hz noise_figure_db : ℝ) : ℝ :=
  -174.0 + 10.0 * Real.logb 10 bandwidth_hz + noise_figure_db

/-- Claim-side linear SINR built on `thermal_noise_dbm_claim`. -/
noncomputable def sinr_linear_claim (rsrp_dbm : ℝ) (intf : Option ℝ)
    (bandwidth_hz noise_figure_db : ℝ) : ℝ :=
  to_linear_dbm rsrp_dbm /
    (interference_linear intf +
      to_linear_dbm (thermal_noise_dbm_claim bandwidth_hz noise_figure_db))

/-- Claim-side throughput: `BW × min(log2(1+SINR), 7.6) / 1e6`. -/
noncomputable def throughput_mbps_claim (rsrp_dbm : ℝ) (intf : Option ℝ)
    (bandwidth_hz noise_figure_db : ℝ) : ℝ :=
  bandwidth_hz *
    min (Real.logb 2
        (1 + sinr_linear_claim rsrp_dbm intf bandwidth_hz noise_figure_db))
      7.6 / 1e6

end MorePlots

/-- C7 counterexample: at bandwidth `0.5 Hz` (below the code's hidden
`max(BW,1)` clamp), noise figure `5 dB`, RSRP `−150 dBm` and no
interference, the throughput computed by the code is strictly below the
value of the claim's formula `−174 + 10·log10(BW_Hz) + NF`, refuting the
claim for every bandwidth. -/
theorem C7_counterexample :
    MorePlots.throughput_mbps (-150) none (1 / 2) 5 <
      MorePlots.throughput_mbps_claim (-150) none (1 / 2) 5 ∧
    MorePlots.throughput_mbps (-150) none (1 / 2) 5 ≠
      MorePlots.throughput_mbps_claim (-150) none (1 / 2) 5 := by
  have hx : (0 : ℝ) < (10 : ℝ) ^ (1.9 : ℝ) := Real.rpow_pos_of_pos (by norm_num) _
  have hnoise : MorePlots.thermal_noise_dbm (1 / 2) 5 = -169 := by
    unfold MorePlots.thermal_noise_dbm
    rw [max_eq_right (by norm_num : (1 / 2 : ℝ) ≤ 1.0)]
    norm_num [Real.logb_one]
  have hsinr_code : MorePlots.sinr_linear (-150) none (1 / 2) 5 =
      (10 : ℝ) ^ (1.9 : ℝ) := by
    unfold MorePlots.sinr_linear MorePlots.interference_linear
      MorePlots.to_linear_dbm
    rw [hnoise, zero_add, ← Real.rpow_sub (by norm_num)]
    norm_num
  have hnoise_claim : MorePlots.thermal_noise_dbm_claim (1 / 2) 5 =
      -169 - 10 * Real.logb 10 2 := by
    unfold MorePlots.thermal_noise_dbm_claim
    rw [show ((1 : ℝ) / 2) = (2 : ℝ)⁻¹ by norm_num, Real.logb_inv]
    ring
  have hsinr_claim : MorePlots.sinr_linear_claim (-150) none (1 / 2) 5 =
      2 * (10 : ℝ) ^ (1.9 : ℝ) := by
    unfold MorePlots.sinr_linear_claim MorePlots.interference_linear
      MorePlots.to_linear_dbm
    rw [hnoise_claim, zero_add,
      show ((-169 : ℝ) - 10 * Real.logb 10 2) / 10 =
        -16.9 - Real.logb 10 2 by ring,
      Real.rpow_sub (by norm_num),
      Real.rpow_logb (by norm_num) (by norm_num) (by norm_num),
      div_div_eq_mul_div, mul_comm ((10 : ℝ) ^ ((-150 : ℝ) / 10)) 2,
      mul_div_assoc, ← Real.rpow_sub (by norm_num)]
    norm_num
  have h96 : (10 : ℝ) ^ (1.9 : ℝ) < 96 := by
    rw [show (1.9 : ℝ) = ((19 : ℕ) : ℝ) / ((10 : ℕ) : ℝ) by norm_num]
    exact rpow_lt_of_pow_lt (by norm_num) (by norm_num) (by norm_num) (by norm_num)
  have hse_claim_lt : Real.logb 2 (1 + 2 * (10 : ℝ) ^ (1.9 : ℝ)) < 7.6 := by
    rw [Real.logb_lt_iff_lt_rpow (by norm_num) (by positivity)]
    calc (1 : ℝ) + 2 * (10 : ℝ) ^ (1.9 : ℝ) < 1 + 2 * 96 := by linarith
    _ = 193 := by norm_num
    _ < 2 ^ (((38 : ℕ) : ℝ) / ((5 : ℕ) : ℝ)) :=
        lt_rpow_of_pow_lt (by norm_num) (by norm_num) (by norm_num) (by norm_num)
    _ = 2 ^ (7.6 : ℝ) := by norm_num
  have hse_lt : Real.logb 2 (1 + (10 : ℝ) ^ (1.9 : ℝ)) <
      Real.logb 2 (1 + 2 * (10 : ℝ) ^ (1.9 : ℝ)) :=
    Real.logb_lt_logb (by norm_num) (by positivity) (by linarith)
  have hlt : MorePlots.throughput_mbps (-150) none (1 / 2) 5 <
      MorePlots.throughput_mbps_claim (-150) none (1 / 2) 5 := by
    unfold MorePlots.throughput_mbps MorePlots.throughput_mbps_claim
    rw [hsinr_code, hsinr_claim,
      min_eq_left (le_of_lt (lt_trans hse_lt hse_claim_lt)),
      min_eq_left (le_of_lt hse_claim_lt)]
    linarith
  exact ⟨hlt, ne_of_lt hlt⟩

/-- C7 amended: for every bandwidth `BW ≥ 1 Hz` (the code clamps the
bandwidth inside the noise computation to at least 1 Hz) the pipeline
computes exactly the claim's formulas: `SINR = S/(I+N)` in linear power
with `N(dBm) = −174 + 10·log10(BW) + NF`, spectral efficiency
`log2(1+SINR)` capped at 7.6 bits/s/Hz, and throughput `BW·SE/1e6` Mbit/s,
mapped over the whole received-power vector. -/
theorem C7_amended (rsrps : List ℝ) (intf : Option ℝ) (bw nf : ℝ)
    (hbw : 1 ≤ bw) :
    (∀ r, MorePlots.sinr_linear r intf bw nf =
      MorePlots.sinr_linear_claim r intf bw nf) ∧
    MorePlots.compute_sinr_and_throughput rsrps intf bw nf =
      rsrps.map fun r =>
        (MorePlots.to_dbm (MorePlots.sinr_linear_claim r intf bw nf),
          MorePlots.throughput_mbps_claim r intf bw nf) := by
  have hnoise : MorePlots.thermal_noise_dbm bw nf =
      MorePlots.thermal_noise_dbm_claim bw nf := by
    unfold MorePlots.thermal_noise_dbm MorePlots.thermal_noise_dbm_claim
    rw [max_eq_left (by norm_num; exact hbw)]
  have hsinr : ∀ r, MorePlots.sinr_linear r intf bw nf =
      MorePlots.sinr_linear_claim r intf bw nf := by
    intro r
    unfold MorePlots.sinr_linear MorePlots.sinr_linear_claim
    rw [hnoise]
  refine ⟨hsinr, ?_⟩
  unfold MorePlots.compute_sinr_and_throughput
  refine List.map_congr_left fun r _ => ?_
  rw [hsinr r]
  unfold MorePlots.throughput_mbps MorePlots.throughput_mbps_claim
  rw [hsinr r]

/-- C7 amended, witness at the script defaults: `BW = 20 MHz`, `NF = 5 dB`,
one sample at `−100 dBm`, no interference. -/
theorem C7_amended_witness :
    (∀ r, MorePlots.sinr_linear r none 20e6 5 =
      MorePlots.sinr_linear_claim r none 20e6 5) ∧
    MorePlots.compute_sinr_and_throughput [-100] none 20e6 5 =
      [-100].map fun r =>
        (MorePlots.to_dbm (MorePlots.sinr_linear_claim r none 20e6 5),
          MorePlots.throughput_mbps_claim r none 20e6 5) :=
  C7_amended [-100] none 20e6 5 (by norm_num)

section ScenarioAggregator

/-- Lexicographic order on (model, buildings) keys as a Bool, modelling the
sorted group keys of `pandas.groupby`. -/
def pairLe (a b : String × String) : Bool :=
  if a.1 = b.1 then decide (a.2 ≤ b.2) else decide (a.1 ≤ b.1)

/-- Insertion step of the key sort. -/
def insertPair (x : String × String) :
    List (String × String) → List (String × String)
  | [] => [x]
  | y :: ys => if pairLe x y then x :: y :: ys else y :: insertPair x ys

/-- Insertion sort of group keys (groupby emits groups in sorted key
order). -/
def sortPairs : List (String × String) → List (String × String)
  | [] => []
  | x :: xs => insertPair x (sortPairs xs)

lemma insertPair_length (x : String × String) (l : List (String × String)) :
    (insertPair x l).length = l.length + 1 := by
  induction l with
  | nil => rfl
  | cons y ys ih =>
    by_cases h : pairLe x y = true
    · simp [insertPair, h]
    · rw [Bool.not_eq_true] at h
      simp [insertPair, h, ih]

lemma sortPairs_length (l : List (String × String)) :
    (sortPairs l).length = l.length := by
  induction l with
  | nil => rfl
  | cons x xs ih => rw [sortPairs, insertPair_length, ih, List.length_cons]

lemma insertPair_perm (x : String × String) (l : List (String × String)) :
    (insertPair x l).Perm (x :: l) := by
  induction l with
  | nil => exact List.Perm.refl _
  | cons y ys ih =>
    by_cases h : pairLe x y = true
    · rw [insertPair, if_pos h]
    · rw [Bool.not_eq_true] at h
      rw [insertPair, if_neg (by rw [h]; exact Bool.false_ne_true)]
      exact (ih.cons y).trans (List.Perm.swap x y ys)

lemma sortPairs_perm (l : List (String × String)) : (sortPairs l).Perm l := by
  induction l with
  | nil => exact List.Perm.refl _
  | cons x xs ih => exact (insertPair_perm x (sortPairs xs)).trans (ih.cons x)

end ScenarioAggregator

namespace ResultsAnalyzer

/-- One normalized sample as grouped by `summarize_run`
(`ResultsAnalyzer.py` lines 258-272): the `file`, `model` and `buildings`
columns of the normalized frame plus the numeric columns the summary
aggregates.  The source file name is the scenario identifier of a run. -/
structure NSample where
  file : String
  model : String
  buildings : String
  rx : ℝ
  epl : ℝ
deriving Inhabited

/-- The groupby key of `summarize_run`: `(model, buildings)` — the file /
scenario is *not* part of the key. -/
def nKey (s : NSample) : String × String := (s.model, s.buildings)

/-- One summary row (lines 261-271).  The `std_epl_db` and coverage
columns also present in the source add nothing to the row-multiplicity
claims and are not modelled. -/
structure SummaryRow where
  model : String
  buildings : String
  n_samples : ℕ
  mean_rsrp_dbm : ℝ
  mean_epl_db : ℝ

/-- `summarize_run` (lines 258-272): one row per distinct
`(model, buildings)` group of the input, in sorted key order. -/
noncomputable def summarize_run (df : List NSample) : List SummaryRow :=
  (sortPairs ((df.map nKey).dedup)).map fun k =>
    let g := df.filter fun s => nKey s == k
    { model := k.1
      buildings := k.2
      n_samples := g.length
      mean_rsrp_dbm := listMean (g.map (·.rx))
      mean_epl_db := listMean (g.map (·.epl)) }

/-- Claim-side count: the number of distinct (scenario, model, buildings)
combinations present in the input, the scenario being the source file of
the normalized record. -/
def distinctScenarioModelBuildings (df : List NSample) : ℕ :=
  ((df.map fun s => (s.file, s.model, s.buildings)).dedup).length

end ResultsAnalyzer

/-- C8 counterexample: two normalized samples from two different files
(scenarios) with the same model and buildings flag produce a single summary
row, while the input has two distinct (scenario, model, buildings)
combinations — `summarize_run` groups only by `(model, buildings)`. -/
theorem C8_counterexample :
    (ResultsAnalyzer.summarize_run
      [⟨"S1_run.csv", "LogD", "ON", -60, 0⟩,
       ⟨"S2_run.csv", "LogD", "ON", -70, 0⟩]).length = 1 ∧
    ResultsAnalyzer.distinctScenarioModelBuildings
      [⟨"S1_run.csv", "LogD", "ON", -60, 0⟩,
       ⟨"S2_run.csv", "LogD", "ON", -70, 0⟩] = 2 ∧
    (ResultsAnalyzer.summarize_run
      [⟨"S1_run.csv", "LogD", "ON", -60, 0⟩,
       ⟨"S2_run.csv", "LogD", "ON", -70, 0⟩]).length ≠
    ResultsAnalyzer.distinctScenarioModelBuildings
      [⟨"S1_run.csv", "LogD", "ON", -60, 0⟩,
       ⟨"S2_run.csv", "LogD", "ON", -70, 0⟩] := by
  refine ⟨rfl, rfl, ?_⟩
  intro h
  rw [show (ResultsAnalyzer.summarize_run
      [⟨"S1_run.csv", "LogD", "ON", -60, 0⟩,
       ⟨"S2_run.csv", "LogD", "ON", -70, 0⟩]).length = 1 from rfl,
    show ResultsAnalyzer.distinctScenarioModelBuildings
      [⟨"S1_run.csv", "LogD", "ON", -60, 0⟩,
       ⟨"S2_run.csv", "LogD", "ON", -70, 0⟩] = 2 from rfl] at h
  exact absurd h (by norm_num)

/-- C8 amended: the Scenario Aggregator produces exactly one summary row
per distinct `(model, buildings)` combination present in the input — the
row count equals the number of distinct keys and the rows' keys are a
permutation of them (each key exactly once). -/
theorem C8_amended (df : List ResultsAnalyzer.NSample) :
    (ResultsAnalyzer.summarize_run df).length =
      ((df.map ResultsAnalyzer.nKey).dedup).length ∧
    ((ResultsAnalyzer.summarize_run df).map fun r =>
      (r.model, r.buildings)).Perm ((df.map ResultsAnalyzer.nKey).dedup) := by
  constructor
  · rw [ResultsAnalyzer.summarize_run, List.length_map, sortPairs_length]
  · have hmap : ((ResultsAnalyzer.summarize_run df).map fun r =>
        (r.model, r.buildings)) =
        sortPairs ((df.map ResultsAnalyzer.nKey).dedup) := by
      rw [ResultsAnalyzer.summarize_run, List.map_map]
      exact (List.map_congr_left fun k _ => rfl).trans (List.map_id _)
    rw [hmap]
    exact sortPairs_perm _

namespace ErrorMetrics

/-- numpy 1-D broadcasting semantics of `pr_sim - pr_theory`
(`ErrorMetrics.py` lines 36-37): defined elementwise when the lengths
match, broadcast when either operand has a single element, otherwise numpy
raises a broadcast `ValueError` (modelled `none`). -/
noncomputable def npSub (a b : List ℝ) : Option (List ℝ) :=
  if a.length = b.length then some (List.zipWith (fun x y => x - y) a b)
  else if a.length = 1 then some (b.map fun y => a.headI - y)
  else if b.length = 1 then some (a.map fun x => x - b.headI)
  else none

/-- `pr_theory` of the results loop (`ErrorMetrics.py` lines 25-30): built
from the distance column of the *entire* dataframe (`df["Distance"]`) and
the frequency / transmit power of the dataframe's first row (`df.iloc[0]`),
not from the model's own subset. -/
noncomputable def prTheory (df : List Row) : List (Option ℝ) :=
  df.map fun r =>
    pr_dbm (r.distance : ℝ) ((df.headI.txFreq : ℚ) : ℝ) df.headI.txPower

/-- The error vector the results loop tries to form for one model:
`pr_sim - pr_theory` with `pr_sim` the model's own rows. -/
noncomputable def emErrors (df : List Row) (m : String) : Option (List ℝ) :=
  (seqOptions (prTheory df)).bind fun theory =>
    npSub ((df.filter fun r => r.model == m).map (·.rx)) theory

end ErrorMetrics

/-- C9: in the `ErrorMetrics.py` results loop the theoretical
received-power vector is built from the whole dataframe's distance column
and the first row's frequency and transmit power, so it has one entry per
dataframe row; consequently, for every model whose row count differs from
the dataframe's, the elementwise error `pr_sim - pr_theory` is not defined
over matched candidate/reference pairs — it either raises a numpy
broadcast error (`none`) or broadcasts a single sample against all rows,
yielding a vector whose length differs from the model's sample count. -/
theorem C9_mismatched_reference (df : List Row) (m : String)
    (hmem : m ∈ df.map (·.model))
    (hlen : (df.filter fun r => r.model == m).length ≠ df.length) :
    (ErrorMetrics.prTheory df).length = df.length ∧
    (ErrorMetrics.emErrors df m = none ∨
      ∃ es, ErrorMetrics.emErrors df m = some es ∧
        es.length ≠ (df.filter fun r => r.model == m).length) := by
  refine ⟨List.length_map _ _, ?_⟩
  obtain ⟨r, hr, hrm⟩ := List.mem_map.mp hmem
  have hsubmem : r ∈ df.filter fun x => x.model == m :=
    List.mem_filter.mpr ⟨hr, by simp [hrm]⟩
  have hsubpos : 0 < (df.filter fun x => x.model == m).length :=
    List.length_pos_of_mem hsubmem
  have hsuble : (df.filter fun x => x.model == m).length ≤ df.length :=
    List.length_filter_le _ _
  have hdfge : 2 ≤ df.length := by
    rcases Nat.lt_or_ge df.length 2 with h2 | h2
    · interval_cases hdf : df.length
      · omega
      · omega
    · exact h2
  cases hseq : seqOptions (ErrorMetrics.prTheory df) with
  | none =>
    left
    unfold ErrorMetrics.emErrors
    rw [hseq]
    rfl
  | some theory =>
    have htlen : theory.length = df.length := by
      rw [seqOptions_length hseq, ErrorMetrics.prTheory,
        List.length_map]
    have hmaplen : ((df.filter fun x => x.model == m).map (·.rx)).length =
        (df.filter fun x => x.model == m).length := List.length_map _ _
    by_cases hone : (df.filter fun x => x.model == m).length = 1
    · right
      refine ⟨theory.map fun y =>
        ((df.filter fun x => x.model == m).map (·.rx)).headI - y, ?_, ?_⟩
      · unfold ErrorMetrics.emErrors ErrorMetrics.npSub
        rw [hseq]
        simp only [Option.some_bind]
        rw [if_neg (by rw [hmaplen, htlen]; omega), if_pos (by rw [hmaplen, hone])]
      · rw [List.length_map, htlen, hone]
        omega
    · left
      unfold ErrorMetrics.emErrors ErrorMetrics.npSub
      rw [hseq]
      simp only [Option.some_bind]
      rw [if_neg (by rw [hmaplen, htlen]; omega),
        if_neg (by rw [hmaplen]; omega), if_neg (by rw [htlen]; omega)]

/-- C9 witness: three rows, models `A` (two rows) and `B` (one row). -/
theorem C9_mismatched_reference_witness :
    (ErrorMetrics.prTheory
      [⟨"A", 10, -60, 1000, 30⟩, ⟨"A", 20, -65, 1000, 30⟩,
       ⟨"B", 30, -70, 1000, 30⟩]).length = 3 ∧
    (ErrorMetrics.emErrors
      [⟨"A", 10, -60, 1000, 30⟩, ⟨"A", 20, -65, 1000, 30⟩,
       ⟨"B", 30, -70, 1000, 30⟩] "A" = none ∨
      ∃ es, ErrorMetrics.emErrors
        [⟨"A", 10, -60, 1000, 30⟩, ⟨"A", 20, -65, 1000, 30⟩,
         ⟨"B", 30, -70, 1000, 30⟩] "A" = some es ∧
        es.length ≠ ([⟨"A", 10, -60, 1000, 30⟩, ⟨"A", 20, -65, 1000, 30⟩,
          (⟨"B", 30, -70, 1000, 30⟩ : Row)].filter
            fun r => r.model == "A").length) :=
  C9_mismatched_reference
    [⟨"A", 10, -60, 1000, 30⟩, ⟨"A", 20, -65, 1000, 30⟩,
     ⟨"B", 30, -70, 1000, 30⟩] "A" (by decide) (by decide)

/-- `coverage_ratio` from `S2_error_metrics.py` lines 22-24:
`float(np.mean(pr_dbm >= threshold_dbm) * 100.0)`.  `np.mean` of an empty
vector is `nan`, modelled `none`; otherwise it is the mean of the 0/1
indicator, times 100. -/
noncomputable def coverage_ratio (pr_dbm : List ℝ) (threshold_dbm : ℝ) :
    Option ℝ :=
  if pr_dbm.isEmpty then none
  else some (listMean (pr_dbm.map fun x =>
    if threshold_dbm ≤ x then (1 : ℝ) else 0) * 100.0)

namespace ResultsAnalyzer

/-- `coverage_percent` from `ResultsAnalyzer.py` lines 198-199:
`float((series_dbm >= thr_dbm).mean() * 100.0)` — the same computation as
`coverage_ratio` (a pandas mean of an empty boolean series is also
`nan`). -/
noncomputable def coverage_percent (series_dbm : List ℝ) (thr_dbm : ℝ) :
    Option ℝ :=
  if series_dbm.isEmpty then none
  else some (listMean (series_dbm.map fun x =>
    if thr_dbm ≤ x then (1 : ℝ) else 0) * 100.0)

end ResultsAnalyzer

/-- C10: for every nonempty sample vector the coverage ratio is defined and
lies in `[0, 100]`; for the empty vector it is `nan` (`none`) — in
particular neither `0%` nor `100%`.  `ResultsAnalyzer.coverage_percent`
computes the same function. -/
theorem C10_coverage_bounds (pr : List ℝ) (thr : ℝ) :
    (pr ≠ [] → ∃ c, coverage_ratio pr thr = some c ∧ 0 ≤ c ∧ c ≤ 100) ∧
    (pr = [] → coverage_ratio pr thr = none ∧
      coverage_ratio pr thr ≠ some 0 ∧ coverage_ratio pr thr ≠ some 100) ∧
    ResultsAnalyzer.coverage_percent pr thr = coverage_ratio pr thr := by
  refine ⟨?_, ?_, rfl⟩
  · intro hne
    refine ⟨listMean (pr.map fun x => if thr ≤ x then (1 : ℝ) else 0) * 100.0,
      ?_, ?_, ?_⟩
    · unfold coverage_ratio
      rw [if_neg (by rw [isEmpty_eq_false_of_ne_nil hne]; exact Bool.false_ne_true)]
    · have hsum : 0 ≤ (pr.map fun x => if thr ≤ x then (1 : ℝ) else 0).sum := by
        apply List.sum_nonneg
        intro y hy
        obtain ⟨x, _, hxy⟩ := List.mem_map.mp hy
        rw [← hxy]
        by_cases h : thr ≤ x
        · rw [if_pos h]; norm_num
        · rw [if_neg h]
      unfold listMean
      positivity
    · have hlenpos : 0 < (pr.length : ℝ) := by
        have := List.length_pos_of_ne_nil hne
        exact_mod_cast this
      have hsumle : (pr.map fun x => if thr ≤ x then (1 : ℝ) else 0).sum ≤
          pr.length := by
        have hb : ∀ y ∈ pr.map fun x => if thr ≤ x then (1 : ℝ) else 0,
            y ≤ 1 := by
          intro y hy
          obtain ⟨x, _, hxy⟩ := List.mem_map.mp hy
          rw [← hxy]
          by_cases h : thr ≤ x
          · rw [if_pos h]
          · rw [if_neg h]; norm_num
        calc (pr.map fun x => if thr ≤ x then (1 : ℝ) else 0).sum ≤
            (pr.map fun x => if thr ≤ x then (1 : ℝ) else 0).length • (1 : ℝ) :=
              List.sum_le_card_nsmul _ _ hb
        _ = pr.length := by rw [List.length_map]; simp
      unfold listMean
      rw [List.length_map]
      rw [div_mul_eq_mul_div, div_le_iff₀ hlenpos]
      nlinarith
  · intro hnil
    subst hnil
    refine ⟨rfl, ?_, ?_⟩ <;> intro h <;> cases h

/-- C10 witness: the spec's concrete vector `[-90, -105, -98, -120]` dBm at
threshold `-100` dBm (nonempty case) and the empty vector at threshold
`0`. -/
theorem C10_coverage_bounds_witness :
    (∃ c, coverage_ratio [-90, -105, -98, -120] (-100) = some c ∧
      0 ≤ c ∧ c ≤ 100) ∧
    coverage_ratio ([] : List ℝ) 0 = none :=
  ⟨(C10_coverage_bounds [-90, -105, -98, -120] (-100)).1 (by simp),
    ((C10_coverage_bounds ([] : List ℝ) 0).2.1 rfl).1⟩
